import Mathlib

/-!
Verification of the back_sw video-platform backend.

The controllers are shallowly embedded: each Mongo collection is a Lean
list of records, each aggregation pipeline is the corresponding sequence
of filter / map (lookup+project) / sort / drop / take stages, and each
mutation returns an `Except` outcome together with the post-state of the
store.  JavaScript peculiarities that matter to the claims (a function
body without a `return` statement evaluating to `undefined`, an
un-awaited promise being assigned to a document field, `||`-defaulting)
are modelled explicitly.
-/

deriving instance DecidableEq for Except

namespace BackSw

/-- Error thrown by controllers (`ApiError(statusCode, message)`). -/
structure ApiError where
  statusCode : Nat
  message : String
deriving DecidableEq

/-- A user document (`user.model.js`): profile fields plus the credential
fields `password` and `refreshToken`. -/
structure User where
  id : Nat
  username : String
  email : String
  fullname : String
  avatar : String
  coverImage : String
  password : String
  refreshToken : Option String
deriving DecidableEq

/-- A video document (`video.model.js`), with `createdAt` from the
mongoose timestamps option. -/
structure Video where
  id : Nat
  videoFile : String
  thumbnail : String
  title : String
  description : String
  duration : Nat
  views : Nat
  isPublished : Bool
  owner : Nat
  createdAt : Nat
deriving DecidableEq

/-- A comment document (`comment.model.js`). -/
structure Comment where
  id : Nat
  content : String
  owner : Nat
  video : Nat
  createdAt : Nat
deriving DecidableEq

/-- A like document (`like.model.js`): `likedBy` plus at most one of the
three optional target references, exactly as the controllers create it. -/
structure Like where
  id : Nat
  video : Option Nat := none
  comment : Option Nat := none
  tweet : Option Nat := none
  likedBy : Nat
deriving DecidableEq

/-- A tweet document (`tweet.model.js`). -/
structure Tweet where
  id : Nat
  content : String
  owner : Nat
deriving DecidableEq

/-- A playlist document (`playlist.model.js`). -/
structure Playlist where
  id : Nat
  name : String
  description : String
  owner : Nat
  videos : List Nat
deriving DecidableEq

/-- A subscription document (`subscription.model.js`). -/
structure Subscription where
  id : Nat
  subscriber : Nat
  channel : Nat
deriving DecidableEq

/-- The persistent collections, plus the counter the store uses to mint
fresh `_id`s for created documents. -/
structure Store where
  users : List User
  videos : List Video
  comments : List Comment
  likes : List Like
  tweets : List Tweet
  playlists : List Playlist
  subscriptions : List Subscription
  nextId : Nat
deriving DecidableEq

/-! ### String helpers for the `$regex` match and the `$sort` stage -/

/-- Lexicographic order on character lists (computable stand-in for the
string order used by the BSON comparator in `$sort`). -/
def charListLe : List Char → List Char → Bool
  | [], _ => true
  | _ :: _, [] => false
  | a :: as, b :: bs =>
    if a.toNat < b.toNat then true
    else if b.toNat < a.toNat then false
    else charListLe as bs

/-- `needle` occurs as a contiguous substring of `hay`; this models the
`$regex: query, $options: "i"` stage applied to literal search text
(both sides already lower-cased by the caller). -/
def strContainsSub (hay needle : String) : Bool :=
  hay.data.tails.any fun t => needle.data.isPrefixOf t

/-! ### getVideoComments (comment controller, aggregation pipeline) -/

/-- Output shape of one element of the `getVideoComments` pipeline after
the `$project` stage: `content`, `createdAt`, the joined owner and the
joined video.  `$lookup` produces an array; `$arrayElemAt [.., 0]` takes
its first element, which is missing (`none`) when the array is empty. -/
structure CommentView where
  id : Nat
  content : String
  owner : Option User
  video : Option Video
  createdAt : Nat
deriving DecidableEq

/-- The `$lookup` + `$project` stages of `getVideoComments`: join
`users` on `owner`, join `videos` on `video`, keep `content` and
`createdAt`, and take element 0 of each joined array. -/
def projectComment (users : List User) (videos : List Video) (c : Comment) : CommentView :=
  { id := c.id
    content := c.content
    owner := (users.filter fun u => decide (u.id = c.owner)).head?
    video := (videos.filter fun v => decide (v.id = c.video)).head?
    createdAt := c.createdAt }

/-- `getVideoComments` (comment controller): `$match` on the video id,
the two `$lookup`s with `$project`, then `$skip ((page-1)*limit)` and
`$limit limit`; an empty page is surfaced as a 404 error. -/
def getVideoComments (store : Store) (videoId page limit : Nat) :
    Except ApiError (List CommentView) :=
  let matched := store.comments.filter fun c => decide (c.video = videoId)
  let projected := matched.map (projectComment store.users store.videos)
  let paged := (projected.drop ((page - 1) * limit)).take limit
  if paged.isEmpty then .error ⟨404, "Comments are not found"⟩
  else .ok paged

/-! ### getAllVideos (video controller, aggregation pipeline) -/

/-- Output shape of one element of the `getAllVideos` pipeline after its
`$project` stage: the listed video fields plus the joined owner
(`$arrayElemAt ["$videosByOwner", 0]`). -/
structure VideoView where
  id : Nat
  videoFile : String
  thumbnail : String
  title : String
  description : String
  duration : Nat
  views : Nat
  isPublished : Bool
  owner : Option User
deriving DecidableEq

/-- The `$lookup` + `$project` stages of `getAllVideos`. -/
def projectVideo (users : List User) (v : Video) : VideoView :=
  { id := v.id
    videoFile := v.videoFile
    thumbnail := v.thumbnail
    title := v.title
    description := v.description
    duration := v.duration
    views := v.views
    isPublished := v.isPublished
    owner := (users.filter fun u => decide (u.id = v.owner)).head? }

/-- Value of a named field of a projected video, in the BSON ordering
universe used by `$sort` (missing < numbers < strings).  Fields not kept
by the `$project` stage (`createdAt` among them) are missing. -/
def videoFieldVal (v : VideoView) : String → Option (Nat ⊕ String)
  | "_id" => some (.inl v.id)
  | "videoFile" => some (.inr v.videoFile)
  | "thumbnail" => some (.inr v.thumbnail)
  | "title" => some (.inr v.title)
  | "description" => some (.inr v.description)
  | "duration" => some (.inl v.duration)
  | "views" => some (.inl v.views)
  | _ => none

/-- BSON comparison: missing sorts below numbers, numbers below strings. -/
def bsonLe : Option (Nat ⊕ String) → Option (Nat ⊕ String) → Bool
  | none, _ => true
  | some _, none => false
  | some (.inl a), some (.inl b) => decide (a ≤ b)
  | some (.inl _), some (.inr _) => true
  | some (.inr _), some (.inl _) => false
  | some (.inr a), some (.inr b) => charListLe a.data b.data

/-- The `$sort` comparator of `getAllVideos`:
`{[sortBy]: sortType === "desc" ? -1 : 1}`. -/
def videoSortLe (sortBy sortType : String) (a b : VideoView) : Bool :=
  if sortType = "desc" then bsonLe (videoFieldVal b sortBy) (videoFieldVal a sortBy)
  else bsonLe (videoFieldVal a sortBy) (videoFieldVal b sortBy)

/-- The `$match` stage of `getAllVideos`: title `$regex` filter when
`query` is non-empty (case-insensitive), owner filter when `userId` is
supplied. -/
def videoMatch (query : String) (userId : Option Nat) (v : Video) : Bool :=
  (query = "" || strContainsSub v.title.toLower query.toLower) &&
    (match userId with
     | some u => decide (v.owner = u)
     | none => true)

/-- The `$sort` stage: a comparison sort by the stage's comparator
(insertion sort, so that the model evaluates by `decide`). -/
def sortStage (le : VideoView → VideoView → Bool) (l : List VideoView) : List VideoView :=
  l.insertionSort fun a b => le a b = true

/-- `getAllVideos` (video controller): the 401 guard, then the pipeline
`$match` → `$lookup`+`$project` → `$sort` → `$skip` → `$limit`; an empty
page is surfaced as a 404 error. -/
def getAllVideos (store : Store) (caller : Option Nat) (query sortBy sortType : String)
    (userId : Option Nat) (page limit : Nat) : Except ApiError (List VideoView) :=
  if caller.isNone then .error ⟨401, "User needs to be logged in"⟩
  else
    let matched := store.videos.filter (videoMatch query userId)
    let projected := matched.map (projectVideo store.users)
    let sorted := sortStage (videoSortLe sortBy sortType) projected
    let paged := (sorted.drop ((page - 1) * limit)).take limit
    if paged.isEmpty then .error ⟨404, "Videos are not found"⟩
    else .ok paged

/-! ### Video mutations (video controller) -/

/-- `updateVideo` (video controller): after the id-format check the video
is updated through `findByIdAndUpdate` with `$set: updateData` — mongoose
drops `undefined` entries from `$set`, hence the `Option` fields — and a
404 is raised only when the video does not exist.  No ownership check is
performed anywhere in this handler. -/
def updateVideo (store : Store) (videoId : Nat)
    (title description thumbnail : Option String) :
    Except ApiError Video × Store :=
  let applySet := fun (v : Video) =>
    { v with
      title := title.getD v.title
      description := description.getD v.description
      thumbnail := thumbnail.getD v.thumbnail }
  match store.videos.find? fun v => decide (v.id = videoId) with
  | none => (.error ⟨404, "Video not found"⟩, store)
  | some v =>
    (.ok (applySet v),
     { store with videos := store.videos.map fun x => if x.id = videoId then applySet x else x })

/-- `deleteVideo` (video controller): `findByIdAndDelete`, 404 when the
video does not exist.  No ownership check is performed. -/
def deleteVideo (store : Store) (videoId : Nat) : Except ApiError Video × Store :=
  match store.videos.find? fun v => decide (v.id = videoId) with
  | none => (.error ⟨404, "Video not found"⟩, store)
  | some v =>
    (.ok v, { store with videos := store.videos.filter fun x => decide (x.id ≠ videoId) })

/-! ### Tweet mutations (tweet controller) -/

/-- `updateTweet` (tweet controller): load the tweet (404 when absent),
compare its owner against the caller (403 on mismatch), then update. -/
def updateTweet (store : Store) (callerId tweetId : Nat) (content : String) :
    Except ApiError Tweet × Store :=
  match store.tweets.find? fun t => decide (t.id = tweetId) with
  | none => (.error ⟨404, "Tweet not found"⟩, store)
  | some t =>
    if t.owner ≠ callerId then
      (.error ⟨403, "You can only update your own tweets"⟩, store)
    else
      (.ok { t with content := content },
       { store with tweets := store.tweets.map fun x =>
           if x.id = tweetId then { x with content := content } else x })

/-- `deleteTweet` (tweet controller): load (404), ownership check (403),
then `findByIdAndDelete`. -/
def deleteTweet (store : Store) (callerId tweetId : Nat) : Except ApiError Tweet × Store :=
  match store.tweets.find? fun t => decide (t.id = tweetId) with
  | none => (.error ⟨404, "Tweet not found"⟩, store)
  | some t =>
    if t.owner ≠ callerId then
      (.error ⟨403, "You can only delete your own tweets"⟩, store)
    else
      (.ok t, { store with tweets := store.tweets.filter fun x => decide (x.id ≠ tweetId) })

/-! ### Comment mutations (comment controller) -/

/-- `updateComment` (comment controller): login check (401), blank check
(400), then `findOneAndUpdate({_id, owner})`; when no document matches —
including the case of a caller who is not the owner — the handler throws
a 500 "Something went wrong" error, not a 403. -/
def updateComment (store : Store) (caller : Option Nat) (commentId : Nat) (content : String) :
    Except ApiError Comment × Store :=
  match caller with
  | none => (.error ⟨401, "User must be logged in"⟩, store)
  | some userId =>
    if content = "" then (.error ⟨400, "Comment cannot be empty"⟩, store)
    else
      match store.comments.find? fun c => decide (c.id = commentId ∧ c.owner = userId) with
      | none => (.error ⟨500, "Something went wrong while updating the comment"⟩, store)
      | some c =>
        (.ok { c with content := content },
         { store with comments := store.comments.map fun x =>
             if x.id = commentId ∧ x.owner = userId then { x with content := content } else x })

/-- `deleteComment` (comment controller): login check (401), then
`findOneAndDelete({_id, owner})`; a non-owner (or missing comment) gets
a 500 error. -/
def deleteComment (store : Store) (caller : Option Nat) (commentId : Nat) :
    Except ApiError Comment × Store :=
  match caller with
  | none => (.error ⟨401, "User must be logged in"⟩, store)
  | some userId =>
    match store.comments.find? fun c => decide (c.id = commentId ∧ c.owner = userId) with
    | none => (.error ⟨500, "Something went wrong while deleting the comment"⟩, store)
    | some c =>
      (.ok c,
       { store with
         comments :=
           store.comments.filter fun x => decide (¬ (x.id = commentId ∧ x.owner = userId)) })

/-! ### Playlist mutations (playlist controller) -/

/-- `updatePlaylist` (playlist controller): blank check (400), then
`findByIdAndUpdate` (404 when absent).  No ownership check. -/
def updatePlaylist (store : Store) (playlistId : Nat) (name description : String) :
    Except ApiError Playlist × Store :=
  if name = "" ∨ description = "" then
    (.error ⟨400, "Name or description cannot be empty"⟩, store)
  else
    match store.playlists.find? fun p => decide (p.id = playlistId) with
    | none => (.error ⟨404, "Playlist not found"⟩, store)
    | some p =>
      (.ok { p with name := name, description := description },
       { store with playlists := store.playlists.map fun x =>
           if x.id = playlistId then { x with name := name, description := description } else x })

/-- `deletePlaylist` (playlist controller): `findByIdAndDelete`, 404 when
absent.  No ownership check. -/
def deletePlaylist (store : Store) (playlistId : Nat) : Except ApiError Playlist × Store :=
  match store.playlists.find? fun p => decide (p.id = playlistId) with
  | none => (.error ⟨404, "Playlist not found"⟩, store)
  | some p =>
    (.ok p,
     { store with playlists := store.playlists.filter fun x => decide (x.id ≠ playlistId) })

/-- `$setUnion` of two arrays: their distinct members. -/
def setUnion (a b : List Nat) : List Nat := (a ++ b).dedup

/-- `addVideoToPlaylist` (playlist controller): the aggregation
`$match` on the playlist id → `$addFields` replacing `videos` with
`$setUnion(videos, [videoId])` → `$merge` writing the result back over
the matched documents.  An aggregate ending in `$merge` yields `[]`,
which is truthy, so the handler's `!updatedPlaylist` branch is dead and
the call always responds with success. -/
def addVideoToPlaylist (store : Store) (playlistId videoId : Nat) :
    Except ApiError (List Playlist) × Store :=
  (.ok [],
   { store with playlists := store.playlists.map fun q =>
       if q.id = playlistId then { q with videos := setUnion q.videos [videoId] } else q })

/-! ### Like and subscription toggles (like controller, subscription controller) -/

/-- The filter of `Like.findOne({video, likedBy})` in `toggleVideoLike`. -/
def videoLikePred (videoId userId : Nat) (l : Like) : Bool :=
  decide (l.video = some videoId ∧ l.likedBy = userId)

/-- The filter of `Like.findOne({comment, likedBy})` in `toggleCommentLike`. -/
def commentLikePred (commentId userId : Nat) (l : Like) : Bool :=
  decide (l.comment = some commentId ∧ l.likedBy = userId)

/-- The filter of `Like.findOne({tweet, likedBy})` in `toggleTweetLike`. -/
def tweetLikePred (tweetId userId : Nat) (l : Like) : Bool :=
  decide (l.tweet = some tweetId ∧ l.likedBy = userId)

/-- `toggleVideoLike` (like controller): if a like by this user on this
video exists, delete it by `_id` (unlike); otherwise create one. -/
def toggleVideoLike (store : Store) (userId videoId : Nat) : Except ApiError Like × Store :=
  match store.likes.find? (videoLikePred videoId userId) with
  | some l =>
    (.ok l, { store with likes := store.likes.filter fun x => decide (x.id ≠ l.id) })
  | none =>
    let newLike : Like := { id := store.nextId, video := some videoId, likedBy := userId }
    (.ok newLike, { store with likes := store.likes ++ [newLike], nextId := store.nextId + 1 })

/-- `toggleCommentLike` (like controller). -/
def toggleCommentLike (store : Store) (userId commentId : Nat) : Except ApiError Like × Store :=
  match store.likes.find? (commentLikePred commentId userId) with
  | some l =>
    (.ok l, { store with likes := store.likes.filter fun x => decide (x.id ≠ l.id) })
  | none =>
    let newLike : Like := { id := store.nextId, comment := some commentId, likedBy := userId }
    (.ok newLike, { store with likes := store.likes ++ [newLike], nextId := store.nextId + 1 })

/-- `toggleTweetLike` (like controller). -/
def toggleTweetLike (store : Store) (userId tweetId : Nat) : Except ApiError Like × Store :=
  match store.likes.find? (tweetLikePred tweetId userId) with
  | some l =>
    (.ok l, { store with likes := store.likes.filter fun x => decide (x.id ≠ l.id) })
  | none =>
    let newLike : Like := { id := store.nextId, tweet := some tweetId, likedBy := userId }
    (.ok newLike, { store with likes := store.likes ++ [newLike], nextId := store.nextId + 1 })

/-- The filter of `Subscription.findOne({subscriber, channel})`. -/
def subscriptionPred (subscriberId channelId : Nat) (s : Subscription) : Bool :=
  decide (s.subscriber = subscriberId ∧ s.channel = channelId)

/-- `toggleSubscription` (subscription controller): self-subscription is
rejected with a 400; otherwise delete the existing row (unsubscribe) or
create one (subscribe). -/
def toggleSubscription (store : Store) (subscriberId channelId : Nat) :
    Except ApiError Unit × Store :=
  if subscriberId = channelId then
    (.error ⟨400, "You cannot subscribe to your own channel"⟩, store)
  else
    match store.subscriptions.find? (subscriptionPred subscriberId channelId) with
    | some s =>
      (.ok (),
       { store with subscriptions := store.subscriptions.filter fun x => decide (x.id ≠ s.id) })
    | none =>
      (.ok (),
       { store with
         subscriptions :=
           store.subscriptions ++ [{ id := store.nextId, subscriber := subscriberId, channel := channelId }]
         nextId := store.nextId + 1 })

/-- Whether a like row by `userId` on video `videoId` exists in the store. -/
def videoLikeExists (store : Store) (userId videoId : Nat) : Bool :=
  store.likes.any (videoLikePred videoId userId)

/-- Whether a like row by `userId` on comment `commentId` exists. -/
def commentLikeExists (store : Store) (userId commentId : Nat) : Bool :=
  store.likes.any (commentLikePred commentId userId)

/-- Whether a like row by `userId` on tweet `tweetId` exists. -/
def tweetLikeExists (store : Store) (userId tweetId : Nat) : Bool :=
  store.likes.any (tweetLikePred tweetId userId)

/-- Whether a subscription row (`subscriberId`, `channelId`) exists. -/
def subscriptionExists (store : Store) (subscriberId channelId : Nat) : Bool :=
  store.subscriptions.any (subscriptionPred subscriberId channelId)

/-! ### Channel statistics (dashboard controller) -/

/-- The payload assembled by `getChannelStats`. -/
structure ChannelStats where
  totalVideos : Nat
  totalSubscribers : Nat
  totalVideoLikes : Nat
  totalTweetLikes : Nat
  totalCommentLikes : Nat
  totalViews : Nat
deriving DecidableEq

/-- JavaScript `x || d` applied to an optional numeric aggregation
result (`totalViews[0]?.totalViews || 0`): `undefined` and `0` are both
falsy and give the default. -/
def jsNumOr (x : Option Nat) (d : Nat) : Nat :=
  match x with
  | none => d
  | some t => if t = 0 then d else t

/-- `getChannelStats` (dashboard controller): `countDocuments` per
collection, `distinct("_id")` reference-set lookups feeding `$in`
filters over the likes, and the `$match`/`$group`/`$sum` views
aggregation whose empty result is defaulted with `|| 0`.  Counts are
numbers, so the handler's `=== null || === undefined` guards never fire
and the operation always succeeds. -/
def getChannelStats (store : Store) (userId : Nat) : ChannelStats :=
  let ownedVideos := store.videos.filter fun v => decide (v.owner = userId)
  let ownedVideoIds := (ownedVideos.map Video.id).dedup
  let ownedTweetIds :=
    ((store.tweets.filter fun t => decide (t.owner = userId)).map Tweet.id).dedup
  let ownedCommentIds :=
    ((store.comments.filter fun c => decide (c.owner = userId)).map Comment.id).dedup
  let viewsAgg : Option Nat :=
    match ownedVideos with
    | [] => none
    | _ => some (ownedVideos.map Video.views).sum
  { totalVideos := ownedVideos.length
    totalSubscribers := (store.subscriptions.filter fun s => decide (s.channel = userId)).length
    totalVideoLikes :=
      (store.likes.filter fun l =>
        match l.video with
        | some v => ownedVideoIds.contains v
        | none => false).length
    totalTweetLikes :=
      (store.likes.filter fun l =>
        match l.tweet with
        | some t => ownedTweetIds.contains t
        | none => false).length
    totalCommentLikes :=
      (store.likes.filter fun l =>
        match l.comment with
        | some c => ownedCommentIds.contains c
        | none => false).length
    totalViews := jsNumOr viewsAgg 0 }

/-! ### Password hashing on save (user model) -/

/-- A JavaScript value sitting in the mongoose `password` path: an
ordinary string, or a still-pending `Promise` of a string (what
`bcrypt.hash(...)` evaluates to when not awaited). -/
inductive JsVal where
  | str : String → JsVal
  | pendingPromise : String → JsVal
deriving DecidableEq

/-- String coercion of such a value (a pending promise stringifies to
`[object Promise]`, not to its eventual result). -/
def JsVal.asString : JsVal → String
  | .str s => s
  | .pendingPromise _ => "[object Promise]"

/-- The digest produced by the hashing step `bcrypt.hash(pw, rounds)`
(concrete stand-in; only that it is the value the promise resolves to
matters). -/
def bcryptHash (pw : String) (rounds : Nat) : String :=
  "bcrypt." ++ toString rounds ++ "." ++ pw

/-- `bcrypt.compare(pw, digest)`: true exactly when `digest` is the
digest of `pw`. -/
def bcryptCompare (pw digest : String) : Bool :=
  decide (digest = bcryptHash pw 10)

/-- `userSchema.pre("save")` from the user model: when the password path
was not modified it is left alone; otherwise the hook executes
`this.password = bcrypt.hash(this.password, 10)` — with no `await`, so
the path receives the pending promise rather than the digest. -/
def userPreSave (passwordModified : Bool) (password : JsVal) : JsVal :=
  if ¬ passwordModified then password
  else .pendingPromise (bcryptHash password.asString 10)

/-- `userSchema.methods.isPasswordCorrect`: compares the supplied
plaintext against whatever the stored password path holds. -/
def isPasswordCorrect (stored : JsVal) (password : String) : Bool :=
  bcryptCompare password stored.asString

/-! ### JavaScript function-completion semantics (asyncHandler, token methods) -/

/-- A statement of a JavaScript function body, as far as the completion
value is concerned: an expression statement or a `return`. -/
inductive JsStmt (α : Type) where
  | exprStmt : α → JsStmt α
  | returnStmt : α → JsStmt α

/-- The value of calling a JavaScript function with the given body: the
argument of the first `return` statement, or `undefined` (`none`) when
the body has none. -/
def jsCall {α : Type} : List (JsStmt α) → Option α
  | [] => none
  | .exprStmt _ :: rest => jsCall rest
  | .returnStmt v :: _ => some v

/-- Outcome of one invocation of a wrapped route handler. -/
inductive HandlerOutcome where
  | completed : HandlerOutcome
  | forwardedToNext : String → HandlerOutcome
deriving DecidableEq

/-- A route handler: request and response are opaque tokens and the
returned promise either fulfills or rejects with an error message. -/
def RouteHandler : Type := Nat → Nat → Except String Unit

/-- The inner arrow of `asyncHandler`:
`(req,res,next) => { Promise.resolve(requestHandler(req,res,next)).catch((err)=>next(err)); }` —
a rejection of the handler's promise is forwarded to `next`. -/
def asyncHandlerInner (requestHandler : RouteHandler) : Nat → Nat → HandlerOutcome :=
  fun req res =>
    match requestHandler req res with
    | .ok _ => .completed
    | .error e => .forwardedToNext e

/-- The body of `asyncHandler` itself: one expression statement holding
the inner arrow, and no `return` statement. -/
def asyncHandlerBody (requestHandler : RouteHandler) :
    List (JsStmt (Nat → Nat → HandlerOutcome)) :=
  [.exprStmt (asyncHandlerInner requestHandler)]

/-- `asyncHandler` (utils): the value of `asyncHandler(requestHandler)`
is the completion value of its body. -/
def asyncHandler (requestHandler : RouteHandler) : Option (Nat → Nat → HandlerOutcome) :=
  jsCall (asyncHandlerBody requestHandler)

/-- The token issuer's `jwt.sign(payload, secret, {expiresIn})`
(concrete stand-in producing a token string from its inputs). -/
def jwtSign (payload : List (String × String)) (secret expiresIn : String) : String :=
  "jwt." ++ secret ++ "." ++ expiresIn ++ "." ++
    String.intercalate "," (payload.map fun p => p.1 ++ "=" ++ p.2)

/-- The payload of `generateAccessToken`. -/
def accessTokenPayload (u : User) : List (String × String) :=
  [("_id", toString u.id), ("email", u.email), ("fullname", u.fullname),
   ("username", u.username)]

/-- The payload of `generateRefreshToken`. -/
def refreshTokenPayload (u : User) : List (String × String) :=
  [("_id", toString u.id)]

/-- Body of `userSchema.methods.generateAccessToken`: one expression
statement calling `jwt.sign(...)`, and no `return`. -/
def generateAccessTokenBody (u : User) (secret expiry : String) : List (JsStmt String) :=
  [.exprStmt (jwtSign (accessTokenPayload u) secret expiry)]

/-- `userSchema.methods.generateAccessToken`: completion value of its
body. -/
def generateAccessToken (u : User) (secret expiry : String) : Option String :=
  jsCall (generateAccessTokenBody u secret expiry)

/-- Body of `userSchema.methods.generateRefreshToken`: one expression
statement calling `jwt.sign(...)`, and no `return`. -/
def generateRefreshTokenBody (u : User) (secret expiry : String) : List (JsStmt String) :=
  [.exprStmt (jwtSign (refreshTokenPayload u) secret expiry)]

/-- `userSchema.methods.generateRefreshToken`: completion value of its
body. -/
def generateRefreshToken (u : User) (secret expiry : String) : Option String :=
  jsCall (generateRefreshTokenBody u secret expiry)

/-- The pair returned by `generateAccessandRefreshTokens`. -/
structure TokenPair where
  accessToken : Option String
  refreshToken : Option String
deriving DecidableEq

/-- `generateAccessandRefreshTokens` (user controller): load the user,
call the two generator methods, store the refresh token on the user
document, save, and return both tokens; any exception in the try block
becomes a 500 `ApiError` (a missing user makes the method call throw). -/
def generateAccessandRefreshTokens (store : Store) (userId : Nat)
    (accessSecret refreshSecret accessExpiry refreshExpiry : String) :
    Except ApiError TokenPair × Store :=
  match store.users.find? fun u => decide (u.id = userId) with
  | none => (.error ⟨500, "something went wrong"⟩, store)
  | some u =>
    let accessToken := generateAccessToken u accessSecret accessExpiry
    let refreshToken := generateRefreshToken u refreshSecret refreshExpiry
    (.ok { accessToken := accessToken, refreshToken := refreshToken },
     { store with users := store.users.map fun x =>
         if x.id = userId then { x with refreshToken := refreshToken } else x })

/-! ### Raw pagination-parameter arithmetic (numeric semantics of the list handlers) -/

/-- `page` as the list handlers read it: `const { page = 1 } = req.query`
— the default applies only when the parameter is absent; a supplied
value is used as-is, with no positivity or integrality validation. -/
def jsPage (page : Option Int) : Int := page.getD 1

/-- `limit` as the list handlers read it (`const { limit = 10 }`). -/
def jsLimit (limit : Option Int) : Int := limit.getD 10

/-- The `$skip` argument `(page - 1) * parseInt(limit)` as computed by
`getAllVideos` and `getVideoComments`. -/
def jsSkip (page limit : Option Int) : Int := (jsPage page - 1) * jsLimit limit

/-- The `$limit` argument `parseInt(limit)`. -/
def jsLimitStage (limit : Option Int) : Int := jsLimit limit

/-- The join contract as the specification states it: the joined owner
object carries no credential fields — in this embedding, where the
joined owner is a user record, its `password`/`refreshToken` components
hold no information (`""` / `none`). -/
def ownerOmitsCredentials (v : VideoView) : Prop :=
  ∀ u, v.owner = some u → u.password = "" ∧ u.refreshToken = none

/-- List-level core shared by the four toggle handlers: delete the row
found by the filter (by its key), or append a freshly minted row. -/
def toggleRows {α : Type} (p : α → Bool) (key : α → Nat) (mk : Nat → α)
    (xs : List α) (nid : Nat) : List α × Nat :=
  match xs.find? p with
  | some l => (xs.filter fun x => decide (key x ≠ key l), nid)
  | none => (xs ++ [mk nid], nid + 1)

/-! ### Sample documents for concrete evaluations -/

/-- Sample user owning the sample videos and comments. -/
def aliceUser : User :=
  { id := 1, username := "alice", email := "alice@example.com", fullname := "Alice A"
    avatar := "avA", coverImage := "", password := "pw-hash", refreshToken := some "rt" }

/-- Sample second user (not an owner of anything in `store1`). -/
def bobUser : User :=
  { id := 2, username := "bob", email := "bob@example.com", fullname := "Bob B"
    avatar := "avB", coverImage := "", password := "pw2-hash", refreshToken := none }

/-- Sample videos, all owned by user 1. -/
def videoA : Video :=
  { id := 11, videoFile := "fA", thumbnail := "tA", title := "Cats"
    description := "dA", duration := 5, views := 0, isPublished := true
    owner := 1, createdAt := 100 }

/-- Second sample video. -/
def videoB : Video :=
  { id := 12, videoFile := "fB", thumbnail := "tB", title := "Dogs"
    description := "dB", duration := 6, views := 3, isPublished := true
    owner := 1, createdAt := 101 }

/-- Third sample video. -/
def videoC : Video :=
  { id := 13, videoFile := "fC", thumbnail := "tC", title := "Fish"
    description := "dC", duration := 7, views := 9, isPublished := false
    owner := 1, createdAt := 102 }

/-- Sample comments, all on video 11 by user 1. -/
def commentA : Comment := { id := 21, content := "one", owner := 1, video := 11, createdAt := 100 }

/-- Second sample comment. -/
def commentB : Comment := { id := 22, content := "two", owner := 1, video := 11, createdAt := 101 }

/-- Third sample comment. -/
def commentC : Comment := { id := 23, content := "three", owner := 1, video := 11, createdAt := 102 }

/-- A small concrete store: two users, three videos, three comments. -/
def store1 : Store :=
  { users := [aliceUser, bobUser], videos := [videoA, videoB, videoC]
    comments := [commentA, commentB, commentC], likes := [], tweets := []
    playlists := [], subscriptions := [], nextId := 50 }

/-- Sample tweet owned by user 1. -/
def tweetA : Tweet := { id := 41, content := "hello", owner := 1 }

/-- Sample playlist owned by user 1, already containing videos 11, 12. -/
def playlistA : Playlist :=
  { id := 31, name := "favs", description := "pd", owner := 1, videos := [11, 12] }

/-- `store1` extended with the sample tweet and playlist. -/
def store2 : Store := { store1 with tweets := [tweetA], playlists := [playlistA] }

/-! ## Helper lemmas -/

/-- Two consecutive `take`-sized slices of a duplicate-free list are
disjoint: nothing in `take l (drop s xs)` recurs in
`take l (drop (s+l) xs)`. -/
theorem drop_add_take_disjoint {α : Type} {xs : List α} (h : xs.Nodup) (s l : Nat) :
    ∀ a ∈ (xs.drop s).take l, a ∉ (xs.drop (s + l)).take l := by
  intro a ha hb
  have hd : xs.drop (s + l) = (xs.drop s).drop l := (List.drop_drop l s xs).symm
  rw [hd] at hb
  have hnd : (xs.drop s).Nodup := List.Nodup.sublist (List.drop_sublist s xs) h
  exact List.disjoint_take_drop hnd (le_refl l) ha (List.take_subset _ _ hb)

/-- The projected comment list of the `getVideoComments` pipeline is
duplicate-free whenever the stored comment ids are. -/
theorem commentsProjected_nodup (store : Store) (videoId : Nat)
    (hc : (store.comments.map Comment.id).Nodup) :
    ((store.comments.filter fun c => decide (c.video = videoId)).map
      (projectComment store.users store.videos)).Nodup := by
  apply List.Nodup.of_map CommentView.id
  rw [List.map_map]
  have h1 : CommentView.id ∘ projectComment store.users store.videos = Comment.id := rfl
  rw [h1]
  exact List.Nodup.sublist ((List.filter_sublist _).map Comment.id) hc

/-- The sorted projected video list of the `getAllVideos` pipeline is
duplicate-free whenever the stored video ids are. -/
theorem videosSorted_nodup (store : Store) (query sortBy sortType : String)
    (userId : Option Nat) (hv : (store.videos.map Video.id).Nodup) :
    (sortStage (videoSortLe sortBy sortType)
      ((store.videos.filter (videoMatch query userId)).map (projectVideo store.users))).Nodup := by
  have hproj :
      ((store.videos.filter (videoMatch query userId)).map (projectVideo store.users)).Nodup := by
    apply List.Nodup.of_map VideoView.id
    rw [List.map_map]
    have h1 : VideoView.id ∘ projectVideo store.users = Video.id := rfl
    rw [h1]
    exact List.Nodup.sublist ((List.filter_sublist _).map Video.id) hv
  exact (List.perm_insertionSort _ _).nodup_iff.mpr hproj

/-! ## Claims -/

/-- C1: for `getVideoComments` and `getAllVideos` with valid `page ≥ 1`
and `limit ≥ 1` (and a store whose document ids are unique, as the
database guarantees for `_id`), any successfully returned page holds at
most `limit` items, and the pages `p` and `p+1` of the same filter share
no item. -/
theorem getVideoComments_getAllVideos_pagination
    (store : Store) (videoId page limit : Nat) (caller : Option Nat)
    (query sortBy sortType : String) (userId : Option Nat)
    (hc : (store.comments.map Comment.id).Nodup)
    (hv : (store.videos.map Video.id).Nodup)
    (hp : 1 ≤ page) (hl : 1 ≤ limit) :
    (∀ l, getVideoComments store videoId page limit = .ok l → l.length ≤ limit) ∧
    (∀ l₁ l₂, getVideoComments store videoId page limit = .ok l₁ →
      getVideoComments store videoId (page + 1) limit = .ok l₂ →
      ∀ c ∈ l₁, c ∉ l₂) ∧
    (∀ l, getAllVideos store caller query sortBy sortType userId page limit = .ok l →
      l.length ≤ limit) ∧
    (∀ l₁ l₂, getAllVideos store caller query sortBy sortType userId page limit = .ok l₁ →
      getAllVideos store caller query sortBy sortType userId (page + 1) limit = .ok l₂ →
      ∀ v ∈ l₁, v ∉ l₂) := by
  have hpm : (page + 1 - 1) * limit = (page - 1) * limit + limit := by
    have h1 : page + 1 - 1 = (page - 1) + 1 := by omega
    rw [h1, Nat.succ_mul]
  refine ⟨?_, ?_, ?_, ?_⟩
  · intro l h
    simp only [getVideoComments] at h
    split at h
    · exact absurd h (by simp)
    · injection h with h
      rw [← h]
      exact List.length_take_le _ _
  · intro l₁ l₂ h1 h2 c hcm
    simp only [getVideoComments] at h1 h2
    split at h1
    · exact absurd h1 (by simp)
    · split at h2
      · exact absurd h2 (by simp)
      · injection h1 with h1
        injection h2 with h2
        rw [← h1] at hcm
        rw [← h2, hpm]
        exact drop_add_take_disjoint (commentsProjected_nodup store videoId hc) _ _ c hcm
  · intro l h
    simp only [getAllVideos] at h
    split at h
    · exact absurd h (by simp)
    · split at h
      · exact absurd h (by simp)
      · injection h with h
        rw [← h]
        exact List.length_take_le _ _
  · intro l₁ l₂ h1 h2 v hvm
    simp only [getAllVideos] at h1 h2
    split at h1
    · exact absurd h1 (by simp)
    · split at h1
      · exact absurd h1 (by simp)
      · split at h2
        · exact absurd h2 (by simp)
        · split at h2
          · exact absurd h2 (by simp)
          · injection h1 with h1
            injection h2 with h2
            rw [← h1] at hvm
            rw [← h2, hpm]
            exact drop_add_take_disjoint
              (videosSorted_nodup store query sortBy sortType userId hv) _ _ v hvm

/-- C1 witness: the pagination theorem applied to the concrete `store1`
(three comments on video 11, three videos, `page = 1`, `limit = 2`),
with every hypothesis discharged by `decide`. -/
theorem getVideoComments_getAllVideos_pagination_witness :
    (store1.comments.map Comment.id).Nodup ∧
    (store1.videos.map Video.id).Nodup ∧
    getVideoComments store1 11 1 2 =
      .ok [projectComment store1.users store1.videos commentA,
           projectComment store1.users store1.videos commentB] ∧
    getVideoComments store1 11 2 2 =
      .ok [projectComment store1.users store1.videos commentC] ∧
    ((∀ l, getVideoComments store1 11 1 2 = .ok l → l.length ≤ 2) ∧
     (∀ l₁ l₂, getVideoComments store1 11 1 2 = .ok l₁ →
       getVideoComments store1 11 (1 + 1) 2 = .ok l₂ → ∀ c ∈ l₁, c ∉ l₂) ∧
     (∀ l, getAllVideos store1 (some 1) "" "createdAt" "desc" none 1 2 = .ok l →
       l.length ≤ 2) ∧
     (∀ l₁ l₂, getAllVideos store1 (some 1) "" "createdAt" "desc" none 1 2 = .ok l₁ →
       getAllVideos store1 (some 1) "" "createdAt" "desc" none (1 + 1) 2 = .ok l₂ →
       ∀ v ∈ l₁, v ∉ l₂)) :=
  ⟨by decide, by decide, by decide, by decide,
   getVideoComments_getAllVideos_pagination store1 11 1 2 (some 1) "" "createdAt" "desc" none
     (by decide) (by decide) (by decide) (by decide)⟩

/-! ## Helper lemmas for the toggle round trip -/

/-- When `find?` hits `a` and at most one element passes the filter, the
filter is exactly `[a]`. -/
theorem filter_eq_singleton_of_find? {α : Type} (p : α → Bool) (xs : List α) (a : α)
    (hf : xs.find? p = some a) (hlen : (xs.filter p).length ≤ 1) :
    xs.filter p = [a] := by
  have hmem : a ∈ xs.filter p :=
    List.mem_filter.mpr ⟨List.mem_of_find?_eq_some hf, List.find?_some hf⟩
  cases h : xs.filter p with
  | nil => rw [h] at hmem; cases hmem
  | cons b bs =>
    rw [h] at hlen hmem
    cases bs with
    | nil =>
      have hab := List.eq_of_mem_singleton hmem
      rw [hab]
    | cons c cs => simp at hlen

/-- `find?` over a list whose only `p`-element was removed by key finds
nothing. -/
theorem find?_filter_key_ne {α : Type} {p : α → Bool} {key : α → Nat} {xs : List α} {a : α}
    (hsing : xs.filter p = [a]) :
    (xs.filter fun x => decide (key x ≠ key a)).find? p = none := by
  rw [List.find?_eq_none]
  intro x hx hpx
  rw [List.mem_filter] at hx
  have hxin : x ∈ xs.filter p := List.mem_filter.mpr ⟨hx.1, hpx⟩
  rw [hsing] at hxin
  have hxa := List.eq_of_mem_singleton hxin
  subst hxa
  simp at hx

/-- `find?` skips over a prefix with no match. -/
theorem find?_append_of_none {α : Type} (p : α → Bool) (l₁ l₂ : List α)
    (h : l₁.find? p = none) : (l₁ ++ l₂).find? p = l₂.find? p := by
  induction l₁ with
  | nil => rfl
  | cons a as ih =>
    cases hpa : p a with
    | true => rw [List.find?_cons_of_pos _ hpa] at h; cases h
    | false =>
      have hpa' : ¬ p a = true := by simp [hpa]
      rw [List.find?_cons_of_neg _ hpa'] at h
      rw [List.cons_append, List.find?_cons_of_neg _ hpa']
      exact ih h

/-- The round trip at the list level: toggling twice restores whether a
matching row exists, provided matching rows are unique. -/
theorem toggleRows_twice_any {α : Type} (p : α → Bool) (key : α → Nat) (mk : Nat → α)
    (hp : ∀ n, p (mk n) = true) (xs : List α) (nid : Nat)
    (hlen : (xs.filter p).length ≤ 1) :
    (toggleRows p key mk (toggleRows p key mk xs nid).1 (toggleRows p key mk xs nid).2).1.any p
      = xs.any p := by
  unfold toggleRows
  cases hf : xs.find? p with
  | some l =>
    simp only [hf]
    have hsing : xs.filter p = [l] := filter_eq_singleton_of_find? p xs l hf hlen
    have hnone : (xs.filter fun x => decide (key x ≠ key l)).find? p = none :=
      find?_filter_key_ne hsing
    simp only [hnone]
    rw [List.any_append]
    have hr : xs.any p = true :=
      List.any_eq_true.mpr ⟨l, List.mem_of_find?_eq_some hf, List.find?_some hf⟩
    rw [hr]
    simp [hp]
  | none =>
    simp only [hf]
    have happ : (xs ++ [mk nid]).find? p = some (mk nid) := by
      rw [find?_append_of_none p xs [mk nid] hf]
      exact List.find?_cons_of_pos _ (hp nid)
    simp only [happ]
    have hr : xs.any p = false := by
      rw [List.any_eq_false]
      intro x hx
      rw [List.find?_eq_none] at hf
      exact hf x hx
    rw [hr, List.any_eq_false]
    intro x hx hpx
    rw [List.mem_filter, List.mem_append] at hx
    rcases hx with ⟨hx1 | hx2, hid⟩
    · rw [List.find?_eq_none] at hf
      exact hf x hx1 hpx
    · have hxm := List.eq_of_mem_singleton hx2
      subst hxm
      simp at hid

/-- C2: counterexample — on the concrete `store1` the `getAllVideos`
join returns the owner as the FULL user document: the credential fields
`password` and `refreshToken` of user 1 appear verbatim in the returned
item, so the claim that the joined owner carries only profile fields and
never credentials is false (the `$lookup` has no field restriction and
the `$project` keeps element 0 of the joined array whole). -/
theorem getAllVideos_owner_credentials_counterexample :
    getAllVideos store1 (some 1) "" "createdAt" "desc" none 1 10 =
      .ok [projectVideo store1.users videoA, projectVideo store1.users videoB,
           projectVideo store1.users videoC] ∧
    (projectVideo store1.users videoA).owner = some aliceUser ∧
    aliceUser.password = "pw-hash" ∧
    aliceUser.refreshToken = some "rt" ∧
    ¬ ownerOmitsCredentials (projectVideo store1.users videoA) := by
  refine ⟨by decide, by decide, rfl, rfl, fun h => ?_⟩
  have h2 := (h aliceUser (by decide)).1
  exact absurd h2 (by decide)

/-- C2 (amended): each returned item of `getAllVideos` /
`getVideoComments` is the projection of a stored document whose joined
`owner` field is a single optional object — the first full matching user
document, credentials included — and is `none` (absent) when no user
matches; a zero-match join does not make the operation fail. -/
theorem getList_join_shape
    (store : Store) (caller : Option Nat) (query sortBy sortType : String)
    (userId : Option Nat) (page limit videoId : Nat) :
    (∀ l, getAllVideos store caller query sortBy sortType userId page limit = .ok l →
      ∀ v ∈ l, ∃ orig ∈ store.videos, v = projectVideo store.users orig ∧
        v.owner = (store.users.filter fun u => decide (u.id = orig.owner)).head? ∧
        ((store.users.filter fun u => decide (u.id = orig.owner)) = [] → v.owner = none)) ∧
    (∀ l, getVideoComments store videoId page limit = .ok l →
      ∀ c ∈ l, ∃ orig ∈ store.comments, c = projectComment store.users store.videos orig ∧
        c.owner = (store.users.filter fun u => decide (u.id = orig.owner)).head? ∧
        ((store.users.filter fun u => decide (u.id = orig.owner)) = [] → c.owner = none)) := by
  constructor
  · intro l h v hv
    simp only [getAllVideos] at h
    split at h
    · exact absurd h (by simp)
    · split at h
      · exact absurd h (by simp)
      · injection h with h
        rw [← h] at hv
        have hv1 := List.drop_subset _ _ (List.take_subset _ _ hv)
        have hv2 : v ∈ (store.videos.filter (videoMatch query userId)).map
            (projectVideo store.users) := by
          have hperm := List.perm_insertionSort
            (fun a b => videoSortLe sortBy sortType a b = true)
            ((store.videos.filter (videoMatch query userId)).map (projectVideo store.users))
          exact hperm.mem_iff.mp hv1
        obtain ⟨orig, horig, heq⟩ := List.mem_map.mp hv2
        refine ⟨orig, List.mem_of_mem_filter horig, heq.symm, ?_, ?_⟩
        · rw [← heq]; rfl
        · intro hnil
          rw [← heq]
          show ((store.users.filter fun u => decide (u.id = orig.owner)).head? : Option User) = none
          rw [hnil]
          rfl
  · intro l h c hc
    simp only [getVideoComments] at h
    split at h
    · exact absurd h (by simp)
    · injection h with h
      rw [← h] at hc
      have hc1 := List.drop_subset _ _ (List.take_subset _ _ hc)
      obtain ⟨orig, horig, heq⟩ := List.mem_map.mp hc1
      refine ⟨orig, List.mem_of_mem_filter horig, heq.symm, ?_, ?_⟩
      · rw [← heq]; rfl
      · intro hnil
        rw [← heq]
        show ((store.users.filter fun u => decide (u.id = orig.owner)).head? : Option User) = none
        rw [hnil]
        rfl

/-- C2 (amended) witness: the join-shape theorem applied to `store1`
at the concrete first result of each list operation, every hypothesis
discharged by `decide`. -/
theorem getList_join_shape_witness :
    (∃ orig ∈ store1.videos, projectVideo store1.users videoA = projectVideo store1.users orig ∧
      (projectVideo store1.users videoA).owner =
        (store1.users.filter fun u => decide (u.id = orig.owner)).head? ∧
      ((store1.users.filter fun u => decide (u.id = orig.owner)) = [] →
        (projectVideo store1.users videoA).owner = none)) ∧
    (∃ orig ∈ store1.comments,
      projectComment store1.users store1.videos commentA =
        projectComment store1.users store1.videos orig ∧
      (projectComment store1.users store1.videos commentA).owner =
        (store1.users.filter fun u => decide (u.id = orig.owner)).head? ∧
      ((store1.users.filter fun u => decide (u.id = orig.owner)) = [] →
        (projectComment store1.users store1.videos commentA).owner = none)) :=
  ⟨(getList_join_shape store1 (some 1) "" "createdAt" "desc" none 1 10 11).1
      [projectVideo store1.users videoA, projectVideo store1.users videoB,
       projectVideo store1.users videoC] (by decide) _ (by decide),
   (getList_join_shape store1 (some 1) "" "createdAt" "desc" none 1 10 11).2
      [projectComment store1.users store1.videos commentA,
       projectComment store1.users store1.videos commentB,
       projectComment store1.users store1.videos commentC] (by decide) _ (by decide)⟩

/-- C3: counterexample — `updateVideo` takes no caller identity at all, so
a caller with id 2 (not the owner, user 1) updating video 11 of `store1`
succeeds with a 200 instead of failing with a 403, and the stored video
changes. -/
theorem updateVideo_nonowner_counterexample :
    videoA.owner = 1 ∧
    (updateVideo store1 11 (some "Hacked") none none).1 =
      .ok { videoA with title := "Hacked" } ∧
    (updateVideo store1 11 (some "Hacked") none none).2 ≠ store1 ∧
    ((updateVideo store1 11 (some "Hacked") none none).2.videos.find? fun v =>
      decide (v.id = 11)) = some { videoA with title := "Hacked" } := by
  decide

/-- C3 (amended): only tweets enforce ownership with a 403 (and an
unchanged store); comments reject a caller who owns no comment with the
given id — in particular a non-owner — with a 500 error and an unchanged
store; videos and playlists perform no ownership check, so update and
delete succeed for any authenticated caller whenever the target
exists. -/
theorem nonowner_mutation_outcomes
    (store : Store) (callerId tweetId commentId videoId playlistId : Nat)
    (content nm desc : String) (t : Tweet) (v : Video) (p : Playlist)
    (ht : store.tweets.find? (fun x => decide (x.id = tweetId)) = some t)
    (hto : t.owner ≠ callerId)
    (hcown : ∀ x ∈ store.comments, x.id = commentId → x.owner ≠ callerId)
    (hcontent : content ≠ "")
    (hvfind : store.videos.find? (fun x => decide (x.id = videoId)) = some v)
    (hpfind : store.playlists.find? (fun x => decide (x.id = playlistId)) = some p)
    (hnm : nm ≠ "") (hdesc : desc ≠ "") :
    updateTweet store callerId tweetId content =
      (.error ⟨403, "You can only update your own tweets"⟩, store) ∧
    deleteTweet store callerId tweetId =
      (.error ⟨403, "You can only delete your own tweets"⟩, store) ∧
    updateComment store (some callerId) commentId content =
      (.error ⟨500, "Something went wrong while updating the comment"⟩, store) ∧
    deleteComment store (some callerId) commentId =
      (.error ⟨500, "Something went wrong while deleting the comment"⟩, store) ∧
    (updateVideo store videoId (some content) none none).1 =
      .ok { v with title := content } ∧
    (deleteVideo store videoId).1 = .ok v ∧
    (updatePlaylist store playlistId nm desc).1 =
      .ok { p with name := nm, description := desc } ∧
    (deletePlaylist store playlistId).1 = .ok p := by
  have hcfind : store.comments.find?
      (fun c => decide (c.id = commentId ∧ c.owner = callerId)) = none := by
    rw [List.find?_eq_none]
    intro x hx
    simp only [decide_eq_true_eq, not_and]
    intro h1 h2
    exact hcown x hx h1 h2
  refine ⟨?_, ?_, ?_, ?_, ?_, ?_, ?_, ?_⟩
  · simp only [updateTweet, ht]
    rw [if_pos hto]
  · simp only [deleteTweet, ht]
    rw [if_pos hto]
  · simp only [updateComment]
    rw [if_neg hcontent, hcfind]
  · simp only [deleteComment, hcfind]
  · simp [updateVideo, hvfind]
  · simp only [deleteVideo, hvfind]
  · simp only [updatePlaylist]
    rw [if_neg (by simp [hnm, hdesc])]
    rw [hpfind]
  · simp only [deletePlaylist, hpfind]

/-- C3 (amended) witness: the outcomes theorem applied to `store2`
(tweet 41, playlist 31, video 11 and the comments all owned by user 1)
with the non-owner caller 2, every hypothesis discharged by `decide`. -/
theorem nonowner_mutation_outcomes_witness :
    tweetA.owner ≠ 2 ∧
    updateTweet store2 2 41 "x" =
      (.error ⟨403, "You can only update your own tweets"⟩, store2) ∧
    updateComment store2 (some 2) 21 "x" =
      (.error ⟨500, "Something went wrong while updating the comment"⟩, store2) ∧
    (updateVideo store2 11 (some "x") none none).1 = .ok { videoA with title := "x" } ∧
    (updatePlaylist store2 31 "n" "d").1 =
      .ok { playlistA with name := "n", description := "d" } :=
  ⟨by decide,
   (nonowner_mutation_outcomes store2 2 41 21 11 31 "x" "n" "d" tweetA videoA playlistA
      (by decide) (by decide) (by decide) (by decide) (by decide) (by decide)
      (by decide) (by decide)).1,
   (nonowner_mutation_outcomes store2 2 41 21 11 31 "x" "n" "d" tweetA videoA playlistA
      (by decide) (by decide) (by decide) (by decide) (by decide) (by decide)
      (by decide) (by decide)).2.2.1,
   (nonowner_mutation_outcomes store2 2 41 21 11 31 "x" "n" "d" tweetA videoA playlistA
      (by decide) (by decide) (by decide) (by decide) (by decide) (by decide)
      (by decide) (by decide)).2.2.2.2.1,
   (nonowner_mutation_outcomes store2 2 41 21 11 31 "x" "n" "d" tweetA videoA playlistA
      (by decide) (by decide) (by decide) (by decide) (by decide) (by decide)
      (by decide) (by decide)).2.2.2.2.2.2.1⟩

/-- Each toggle preserves the at-most-one-matching-row invariant that
the round-trip theorem assumes: after a toggle there is either no
matching row (just deleted) or exactly the freshly created one. -/
theorem toggleRows_preserves_unique {α : Type} (p : α → Bool) (key : α → Nat) (mk : Nat → α)
    (hp : ∀ n, p (mk n) = true) (xs : List α) (nid : Nat)
    (hlen : (xs.filter p).length ≤ 1) :
    ((toggleRows p key mk xs nid).1.filter p).length ≤ 1 := by
  unfold toggleRows
  cases hf : xs.find? p with
  | some l =>
    simp only [hf]
    have hsing : xs.filter p = [l] := filter_eq_singleton_of_find? p xs l hf hlen
    have hnone : (xs.filter fun x => decide (key x ≠ key l)).find? p = none :=
      find?_filter_key_ne hsing
    rw [List.find?_eq_none] at hnone
    have hnil : ((xs.filter fun x => decide (key x ≠ key l)).filter p) = [] := by
      rw [List.filter_eq_nil_iff]
      exact hnone
    rw [hnil]
    simp
  | none =>
    simp only [hf]
    rw [List.filter_append]
    have hxs : xs.filter p = [] := by
      rw [List.filter_eq_nil_iff]
      rw [List.find?_eq_none] at hf
      exact hf
    rw [hxs, List.nil_append]
    simp [hp]

/-- `toggleVideoLike` is `toggleRows` on the likes collection. -/
theorem toggleVideoLike_toggleRows (store : Store) (userId videoId : Nat) :
    (toggleVideoLike store userId videoId).2.likes =
      (toggleRows (videoLikePred videoId userId) Like.id
        (fun n => { id := n, video := some videoId, likedBy := userId })
        store.likes store.nextId).1 ∧
    (toggleVideoLike store userId videoId).2.nextId =
      (toggleRows (videoLikePred videoId userId) Like.id
        (fun n => { id := n, video := some videoId, likedBy := userId })
        store.likes store.nextId).2 := by
  unfold toggleVideoLike toggleRows
  cases hf : store.likes.find? (videoLikePred videoId userId) <;> simp [hf]

/-- `toggleCommentLike` is `toggleRows` on the likes collection. -/
theorem toggleCommentLike_toggleRows (store : Store) (userId commentId : Nat) :
    (toggleCommentLike store userId commentId).2.likes =
      (toggleRows (commentLikePred commentId userId) Like.id
        (fun n => { id := n, comment := some commentId, likedBy := userId })
        store.likes store.nextId).1 ∧
    (toggleCommentLike store userId commentId).2.nextId =
      (toggleRows (commentLikePred commentId userId) Like.id
        (fun n => { id := n, comment := some commentId, likedBy := userId })
        store.likes store.nextId).2 := by
  unfold toggleCommentLike toggleRows
  cases hf : store.likes.find? (commentLikePred commentId userId) <;> simp [hf]

/-- `toggleTweetLike` is `toggleRows` on the likes collection. -/
theorem toggleTweetLike_toggleRows (store : Store) (userId tweetId : Nat) :
    (toggleTweetLike store userId tweetId).2.likes =
      (toggleRows (tweetLikePred tweetId userId) Like.id
        (fun n => { id := n, tweet := some tweetId, likedBy := userId })
        store.likes store.nextId).1 ∧
    (toggleTweetLike store userId tweetId).2.nextId =
      (toggleRows (tweetLikePred tweetId userId) Like.id
        (fun n => { id := n, tweet := some tweetId, likedBy := userId })
        store.likes store.nextId).2 := by
  unfold toggleTweetLike toggleRows
  cases hf : store.likes.find? (tweetLikePred tweetId userId) <;> simp [hf]

/-- For distinct subscriber and channel, `toggleSubscription` is
`toggleRows` on the subscriptions collection. -/
theorem toggleSubscription_toggleRows (store : Store) (subscriberId channelId : Nat)
    (h : subscriberId ≠ channelId) :
    (toggleSubscription store subscriberId channelId).2.subscriptions =
      (toggleRows (subscriptionPred subscriberId channelId) Subscription.id
        (fun n => { id := n, subscriber := subscriberId, channel := channelId })
        store.subscriptions store.nextId).1 ∧
    (toggleSubscription store subscriberId channelId).2.nextId =
      (toggleRows (subscriptionPred subscriberId channelId) Subscription.id
        (fun n => { id := n, subscriber := subscriberId, channel := channelId })
        store.subscriptions store.nextId).2 := by
  unfold toggleSubscription toggleRows
  rw [if_neg h]
  cases hf : store.subscriptions.find? (subscriptionPred subscriberId channelId) <;> simp [hf]

/-- C4: toggling a like (video, comment or tweet) or a subscription twice
on the same (actor, target) pair restores the original existence state
of the row, provided the store holds at most one matching row per pair —
the uniqueness the toggles themselves maintain.  (Self-subscriptions are
rejected by both calls and also leave the state unchanged.) -/
theorem toggle_twice_roundtrip
    (store : Store) (userId videoId commentId tweetId subscriberId channelId : Nat)
    (h1 : (store.likes.filter (videoLikePred videoId userId)).length ≤ 1)
    (h2 : (store.likes.filter (commentLikePred commentId userId)).length ≤ 1)
    (h3 : (store.likes.filter (tweetLikePred tweetId userId)).length ≤ 1)
    (h4 : (store.subscriptions.filter (subscriptionPred subscriberId channelId)).length ≤ 1) :
    videoLikeExists (toggleVideoLike (toggleVideoLike store userId videoId).2 userId videoId).2
        userId videoId = videoLikeExists store userId videoId ∧
    commentLikeExists
        (toggleCommentLike (toggleCommentLike store userId commentId).2 userId commentId).2
        userId commentId = commentLikeExists store userId commentId ∧
    tweetLikeExists (toggleTweetLike (toggleTweetLike store userId tweetId).2 userId tweetId).2
        userId tweetId = tweetLikeExists store userId tweetId ∧
    subscriptionExists
        (toggleSubscription (toggleSubscription store subscriberId channelId).2
          subscriberId channelId).2 subscriberId channelId =
      subscriptionExists store subscriberId channelId := by
  refine ⟨?_, ?_, ?_, ?_⟩
  · simp only [videoLikeExists]
    rw [(toggleVideoLike_toggleRows (toggleVideoLike store userId videoId).2 userId videoId).1]
    rw [(toggleVideoLike_toggleRows store userId videoId).1,
        (toggleVideoLike_toggleRows store userId videoId).2]
    exact toggleRows_twice_any _ _ _ (fun n => by simp [videoLikePred]) _ _ h1
  · simp only [commentLikeExists]
    rw [(toggleCommentLike_toggleRows (toggleCommentLike store userId commentId).2
          userId commentId).1]
    rw [(toggleCommentLike_toggleRows store userId commentId).1,
        (toggleCommentLike_toggleRows store userId commentId).2]
    exact toggleRows_twice_any _ _ _ (fun n => by simp [commentLikePred]) _ _ h2
  · simp only [tweetLikeExists]
    rw [(toggleTweetLike_toggleRows (toggleTweetLike store userId tweetId).2 userId tweetId).1]
    rw [(toggleTweetLike_toggleRows store userId tweetId).1,
        (toggleTweetLike_toggleRows store userId tweetId).2]
    exact toggleRows_twice_any _ _ _ (fun n => by simp [tweetLikePred]) _ _ h3
  · by_cases hsc : subscriberId = channelId
    · simp [toggleSubscription, hsc]
    · simp only [subscriptionExists]
      rw [(toggleSubscription_toggleRows (toggleSubscription store subscriberId channelId).2
            subscriberId channelId hsc).1]
      rw [(toggleSubscription_toggleRows store subscriberId channelId hsc).1,
          (toggleSubscription_toggleRows store subscriberId channelId hsc).2]
      exact toggleRows_twice_any _ _ _ (fun n => by simp [subscriptionPred]) _ _ h4

/-- C4 witness: the round-trip theorem applied to `store2` (no likes and
no subscriptions, so every uniqueness hypothesis holds by `decide`) for
user 1 against video 11, comment 21, tweet 41 and channel 2. -/
theorem toggle_twice_roundtrip_witness :
    (store2.likes.filter (videoLikePred 11 1)).length ≤ 1 ∧
    (store2.subscriptions.filter (subscriptionPred 1 2)).length ≤ 1 ∧
    (videoLikeExists (toggleVideoLike (toggleVideoLike store2 1 11).2 1 11).2 1 11 =
        videoLikeExists store2 1 11 ∧
      commentLikeExists (toggleCommentLike (toggleCommentLike store2 1 21).2 1 21).2 1 21 =
        commentLikeExists store2 1 21 ∧
      tweetLikeExists (toggleTweetLike (toggleTweetLike store2 1 41).2 1 41).2 1 41 =
        tweetLikeExists store2 1 41 ∧
      subscriptionExists (toggleSubscription (toggleSubscription store2 1 2).2 1 2).2 1 2 =
        subscriptionExists store2 1 2) :=
  ⟨by decide, by decide,
   toggle_twice_roundtrip store2 1 11 21 41 1 2 (by decide) (by decide) (by decide) (by decide)⟩

/-- C5: `getChannelStats` for a user who owns no videos always succeeds
(the model has no failure path: counts are numbers, so the handler's
null/undefined guards never fire) and reports `totalViews = 0` — the
empty `$group` result defaulted by `|| 0` — and `totalVideoLikes = 0` —
a count over an empty `$in` set. -/
theorem getChannelStats_no_videos (store : Store) (userId : Nat)
    (h : store.videos.filter (fun v => decide (v.owner = userId)) = []) :
    (getChannelStats store userId).totalViews = 0 ∧
    (getChannelStats store userId).totalVideoLikes = 0 ∧
    (getChannelStats store userId).totalVideos = 0 := by
  simp only [getChannelStats, h]
  refine ⟨rfl, ?_, rfl⟩
  have hfilter : (store.likes.filter fun l =>
      match l.video with
      | some v => (([] : List Video).map Video.id).dedup.contains v
      | none => false) = [] := by
    rw [List.filter_eq_nil_iff]
    intro a _
    cases a.video <;> simp
  rw [hfilter]
  rfl

/-- C5 witness: user 2 owns no videos in `store1`, and the stats theorem
applies with its hypothesis discharged by `decide`. -/
theorem getChannelStats_no_videos_witness :
    store1.videos.filter (fun v => decide (v.owner = 2)) = [] ∧
    ((getChannelStats store1 2).totalViews = 0 ∧
      (getChannelStats store1 2).totalVideoLikes = 0 ∧
      (getChannelStats store1 2).totalVideos = 0) :=
  ⟨by decide, getChannelStats_no_videos store1 2 (by decide)⟩

/-- C6: the `pre("save")` hook assigns `bcrypt.hash(this.password, 10)`
to the password path without awaiting it, so the persisted value is the
pending promise — not the digest the hashing step outputs, and not any
string at all; consequently `isPasswordCorrect` rejects the very
plaintext that was just saved.  The unmodified-password path is a
no-op, so a load performed only to check a password persists nothing. -/
theorem userPreSave_persists_promise_not_digest :
    userPreSave true (JsVal.str "secret123") =
      JsVal.pendingPromise (bcryptHash "secret123" 10) ∧
    (∀ s : String, userPreSave true (JsVal.str "secret123") ≠ JsVal.str s) ∧
    isPasswordCorrect (userPreSave true (JsVal.str "secret123")) "secret123" = false ∧
    userPreSave false (JsVal.str "stored-digest") = JsVal.str "stored-digest" := by
  refine ⟨by decide, fun s h => ?_, by decide, by decide⟩
  have h1 : userPreSave true (JsVal.str "secret123") =
      JsVal.pendingPromise (bcryptHash "secret123" 10) := by decide
  rw [h1] at h
  cases h

/-- C7: adding a video id that is already in the playlist's `videos`
list leaves the stored list with exactly one occurrence of that id, and
the handler answers with success (`$setUnion` dedups; the `$merge`
pipeline's empty result is truthy, so the duplicate add is never an
error). -/
theorem addVideoToPlaylist_duplicate (store : Store) (playlistId videoId : Nat) (p : Playlist)
    (hfind : store.playlists.find? (fun q => decide (q.id = playlistId)) = some p)
    (hmem : videoId ∈ p.videos) :
    (addVideoToPlaylist store playlistId videoId).1 = .ok [] ∧
    ((addVideoToPlaylist store playlistId videoId).2.playlists.find? fun q =>
        decide (q.id = playlistId)) =
      some { p with videos := setUnion p.videos [videoId] } ∧
    (setUnion p.videos [videoId]).count videoId = 1 := by
  refine ⟨rfl, ?_, ?_⟩
  · simp only [addVideoToPlaylist]
    have hcomp : ((fun q => decide (q.id = playlistId)) ∘ fun q : Playlist =>
        if q.id = playlistId then { q with videos := setUnion q.videos [videoId] } else q) =
        fun q => decide (q.id = playlistId) := by
      funext q
      by_cases h : q.id = playlistId <;> simp [h]
    rw [List.find?_map, hcomp, hfind]
    have hpid : p.id = playlistId := by
      have := List.find?_some hfind
      simpa using this
    simp [hpid]
  · have hnd : (setUnion p.videos [videoId]).Nodup := List.nodup_dedup _
    have hm : videoId ∈ setUnion p.videos [videoId] := by
      unfold setUnion
      rw [List.mem_dedup]
      exact List.mem_append.mpr (Or.inl hmem)
    exact List.count_eq_one_of_mem hnd hm

/-- C7 witness: playlist 31 of `store2` already contains video 11;
adding it again stores exactly one occurrence, with every hypothesis
discharged by `decide`. -/
theorem addVideoToPlaylist_duplicate_witness :
    store2.playlists.find? (fun q => decide (q.id = 31)) = some playlistA ∧
    (11 ∈ playlistA.videos) ∧
    ((addVideoToPlaylist store2 31 11).1 = .ok [] ∧
      ((addVideoToPlaylist store2 31 11).2.playlists.find? fun q => decide (q.id = 31)) =
        some { playlistA with videos := setUnion playlistA.videos [11] } ∧
      (setUnion playlistA.videos [11]).count 11 = 1) :=
  ⟨by decide, by decide, addVideoToPlaylist_duplicate store2 31 11 playlistA (by decide) (by decide)⟩

/-- C8: counterexample — the handlers never validate positivity: the
supplied pair page=0, limit=10 flows into `$skip` as
`(0 - 1) * parseInt(10) = -10`, a negative skip, contradicting the
claim that non-positive values are rejected or defaulted and that the
computed skip is never negative. -/
theorem jsSkip_negative_counterexample :
    jsSkip (some 0) (some 10) = -10 ∧ jsSkip (some 0) (some 10) < 0 := by decide

/-- C8 (amended): `page` and `limit` are defaulted (to 1 and 10) only
when absent; supplied values are used as-is with no coercion to positive
integers, so the computed skip `(page-1)*limit` is nonnegative exactly
under well-behaved inputs (`page ≥ 1`, `limit ≥ 0`) and goes negative
for any non-positive page with a positive limit. -/
theorem jsSkip_unvalidated (page limit : Int) :
    jsSkip (some page) (some limit) = (page - 1) * limit ∧
    jsSkip none none = 0 ∧
    jsLimitStage none = 10 ∧
    (1 ≤ page → 0 ≤ limit → 0 ≤ jsSkip (some page) (some limit)) ∧
    (page ≤ 0 → 0 < limit → jsSkip (some page) (some limit) < 0) := by
  refine ⟨rfl, rfl, rfl, ?_, ?_⟩
  · intro h1 h2
    have hpg : (0 : Int) ≤ page - 1 := by omega
    exact mul_nonneg hpg h2
  · intro h1 h2
    have hpg : page - 1 < 0 := by omega
    exact mul_neg_of_neg_of_pos hpg h2

/-- C8 (amended) witness: the arithmetic theorem applied at page 2 /
limit 10 (nonnegative skip) and at page 0 / limit 5 (negative skip). -/
theorem jsSkip_unvalidated_witness :
    (0 : Int) ≤ jsSkip (some 2) (some 10) ∧ jsSkip (some 0) (some 5) < 0 :=
  ⟨(jsSkip_unvalidated 2 10).2.2.2.1 (by decide) (by decide),
   (jsSkip_unvalidated 0 5).2.2.2.2 (by decide) (by decide)⟩

/-- C9: the arrow body of `asyncHandler` wraps the inner
`(req,res,next) => ...` in a block without returning it, so
`asyncHandler(requestHandler)` evaluates to `undefined` rather than to a
callable wrapper — even though the inner arrow, had it been returned,
would forward exactly the rejections of the handler's promise to
`next`. -/
theorem asyncHandler_returns_undefined :
    (∀ requestHandler : RouteHandler, asyncHandler requestHandler = none) ∧
    (∀ (requestHandler : RouteHandler) (req res : Nat) (e : String),
      asyncHandlerInner requestHandler req res = .forwardedToNext e ↔
        requestHandler req res = .error e) := by
  refine ⟨fun _ => rfl, fun requestHandler req res e => ?_⟩
  unfold asyncHandlerInner
  cases h : requestHandler req res with
  | ok u => simp
  | error e' => simp

/-- C10: neither token method contains a `return` statement, so both
evaluate to `undefined`; `generateAccessandRefreshTokens` therefore
either fails outright (missing user) or reports a pair of undefined
tokens — never the defined tokens the claim requires. -/
theorem generateTokens_undefined :
    (∀ (u : User) (secret expiry : String), generateAccessToken u secret expiry = none) ∧
    (∀ (u : User) (secret expiry : String), generateRefreshToken u secret expiry = none) ∧
    (∀ (store : Store) (userId : Nat) (aSec rSec aExp rExp : String),
      (generateAccessandRefreshTokens store userId aSec rSec aExp rExp).1 =
          .error ⟨500, "something went wrong"⟩ ∨
      (generateAccessandRefreshTokens store userId aSec rSec aExp rExp).1 =
          .ok { accessToken := none, refreshToken := none }) := by
  refine ⟨fun _ _ _ => rfl, fun _ _ _ => rfl, fun store userId aSec rSec aExp rExp => ?_⟩
  unfold generateAccessandRefreshTokens
  cases store.users.find? (fun x => decide (x.id = userId)) with
  | none => left; rfl
  | some w => right; rfl

end BackSw
